import Mathlib

/-!
Shallow embedding of the scryfall command-line client
(src/scryfall/api.py and src/scryfall/cli.py).

Side effects (HTTP requests, info/error log records, stdout prints, file and
directory writes, dry-run notices) are made explicit as a list of `Effect`
values accumulated in program order.  Debug-level logging is not modelled;
no claim concerns it.  A Python exception raised by
`requests.Response.raise_for_status` (any status of 400 or above) is
modelled by an `Except.error` result, paired with the effects that were
performed before the raise.
-/

namespace Scryfall

structure HttpError where
  status : Nat
  deriving DecidableEq

instance exceptDecEq {ε α : Type} [DecidableEq ε] [DecidableEq α] :
    DecidableEq (Except ε α)
  | .ok x, .ok y =>
    if h : x = y then .isTrue (h ▸ rfl)
    else .isFalse fun hh => h (Except.ok.inj hh)
  | .error x, .error y =>
    if h : x = y then .isTrue (h ▸ rfl)
    else .isFalse fun hh => h (Except.error.inj hh)
  | .ok _, .error _ => .isFalse fun hh => Except.noConfusion hh
  | .error _, .ok _ => .isFalse fun hh => Except.noConfusion hh

/-- One entry of the optional `card_faces` array of a lookup response; the
code only ever takes the length of the array, so the entry content is an
opaque name. -/
structure CardFace where
  name : String
  deriving DecidableEq

/-- The JSON object returned by the exact-name lookup endpoint, restricted to
the fields `cli.py` reads: `id`, `name`, `set_name`, `collector_number`,
`set`, and the optional `card_faces` array (cli.py lines 175-181). -/
structure CardJson where
  id : String
  name : String
  set_name : String
  collector_number : String
  set : String
  card_faces : Option (List CardFace)
  deriving DecidableEq

/-- The `Card` record (cli.py lines 149-156). -/
structure Card where
  uuid : String
  name : String
  set_name : String
  collector_number : String
  block : String
  is_double_faced : Bool
  deriving DecidableEq

/-- A response of the exact-name lookup endpoint: HTTP status plus parsed
JSON body. -/
structure HttpResponse where
  status : Nat
  body : CardJson
  deriving DecidableEq

/-- A response of the search endpoint: HTTP status plus the `data` array. -/
structure SearchResponse where
  status : Nat
  data : List CardJson
  deriving DecidableEq

/-- A response of the image endpoint: HTTP status plus the streamed chunks. -/
structure ImageResponse where
  status : Nat
  content : List String
  deriving DecidableEq

/-- The remote server, as three oracles keyed by the request parameters:
`named` for GET cards/named with exact=name, `search` for GET cards/search,
and `image uuid face` for GET cards/uuid with format=image, version=png and
the given face. -/
structure Net where
  named : String → HttpResponse
  search : String → SearchResponse
  image : String → String → ImageResponse

/-- Observable side effects of a run, in program order. -/
inductive Effect where
  | namedCall (name : String)
  | searchCall (query : String)
  | imageCall (uuid : String) (face : String)
  | logInfo (msg : String)
  | logError (msg : String)
  | printOut (text : String)
  | writeFile (path : String) (content : String)
  | makedirs (path : String)
  | dryrunNotice (msg : String)
  deriving DecidableEq

def Effect.isSearch : Effect → Bool
  | .searchCall _ => true
  | _ => false

def Effect.isNamed : Effect → Bool
  | .namedCall _ => true
  | _ => false

def Effect.isImage : Effect → Bool
  | .imageCall _ _ => true
  | _ => false

def Effect.isFileWrite : Effect → Bool
  | .writeFile _ _ => true
  | _ => false

/-- Filesystem side effects: file writes and directory creation. -/
def Effect.isFsEffect : Effect → Bool
  | .writeFile _ _ => true
  | .makedirs _ => true
  | _ => false

def Effect.noticeMsg : Effect → Option String
  | .dryrunNotice m => some m
  | _ => none

def Effect.writePath : Effect → Option String
  | .writeFile p _ => some p
  | _ => none

/-- `requests.Response.raise_for_status`, called by `Scryfall._endpoint_get`
(api.py line 19): raises `HTTPError` for status codes 400 and above. -/
def raise_for_status (status : Nat) : Except HttpError Unit :=
  if 400 ≤ status then .error ⟨status⟩ else .ok ()

/-- Truthiness of a `requests.Response` (`response.ok`): status below 400. -/
def responseOk (status : Nat) : Bool := status < 400

/-- `Scryfall.cards_named` (api.py lines 8-9): one GET against the
named-card endpoint via `_endpoint_get`, raising on a bad status. -/
def cards_named (net : Net) (card_name : String) :
    List Effect × Except HttpError HttpResponse :=
  let r := net.named card_name
  ([.namedCall card_name],
    match raise_for_status r.status with
    | .error e => .error e
    | .ok _ => .ok r)

/-- `Scryfall.cards_image` (api.py lines 11-12): one GET against the
per-card image endpoint via `_endpoint_get`, raising on a bad status. -/
def cards_image (net : Net) (uuid face : String) :
    List Effect × Except HttpError ImageResponse :=
  let r := net.image uuid face
  ([.imageCall uuid face],
    match raise_for_status r.status with
    | .error e => .error e
    | .ok _ => .ok r)

/-- Modelled from the spec: `list_cards` (cli.py line 125) calls
`api.cards_search(query)`, a method that is not among those of the
`Scryfall` class in the provided `api.py`.  The wire contract in the spec
gives it as one GET against the search endpoint returning a JSON object
with a `data` array of card objects, raising on a bad status like the
other endpoint calls. -/
def cards_search (net : Net) (query : String) :
    List Effect × Except HttpError SearchResponse :=
  let r := net.search query
  ([.searchCall query],
    match raise_for_status r.status with
    | .error e => .error e
    | .ok _ => .ok r)

/-- The character class of the re.sub call in `slugify` (cli.py line 193). -/
def isIllegalChar (c : Char) : Bool :=
  c = '/' || c = '\\' || c = '<' || c = '>' || c = '|' ||
    c = '"' || c = '*' || c = '?' || c = ':'

/-- re.sub with a single-character class: replace every matching character
by the replacement character. -/
def subCharClass (p : Char → Bool) (r : Char) : List Char → List Char
  | [] => []
  | c :: cs => (if p c then r else c) :: subCharClass p r cs

/-- `slugify` (cli.py lines 192-194). -/
def slugify (card_name : String) : String :=
  ⟨subCharClass isIllegalChar '_' card_name.data⟩

/-- The Card construction inside `list_card_names` (cli.py lines 173-182),
including the double-faced detection of lines 174-176. -/
def cardFromJson (j : CardJson) : Card :=
  let is_double_faced :=
    match j.card_faces with
    | some faces => decide (1 < faces.length)
    | none => false
  { uuid := j.id, name := j.name, set_name := j.set_name,
    collector_number := j.collector_number, block := j.set,
    is_double_faced := is_double_faced }

/-- The per-name loop of `list_card_names` (cli.py lines 170-187).  A raise
out of `cards_named` propagates, aborting the loop; the falsy-response
branch (lines 185-187) logs and skips. -/
def resolveLoop (net : Net) : List String → List Effect × Except HttpError (List Card)
  | [] => ([], .ok [])
  | card_name :: rest =>
    let step := cards_named net card_name
    match step.2 with
    | .error err => (step.1, .error err)
    | .ok response =>
      if responseOk response.status then
        let tail := resolveLoop net rest
        (step.1 ++ tail.1,
          match tail.2 with
          | .error err => .error err
          | .ok cards => .ok (cardFromJson response.body :: cards))
      else
        let tail := resolveLoop net rest
        (step.1 ++ [.logError ("Card not found: " ++ card_name)] ++ tail.1,
          tail.2)

/-- `list_card_names` (cli.py lines 159-189), applied to an already selected
name list (the positional-argument name source of lines 160-161; the
input-file and stdin sources are outside the claims and live partly in the
absent `parsing` module). -/
def list_card_names (net : Net) (card_names : List String) :
    List Effect × Except HttpError (List Card) :=
  let r := resolveLoop net card_names
  match r.2 with
  | .error err => (r.1, .error err)
  | .ok cards =>
    (r.1 ++ [.logInfo ("Found " ++ toString cards.length ++ " cards.")],
      .ok cards)

/-- The arguments `list_cards` reads.  `output_isdir` models the value of
os.path.isdir on `output` (cli.py line 139). -/
structure ListArgs where
  cards : List String
  json : Bool
  with_block : Bool
  with_cn : Bool
  with_set : Bool
  output : String
  output_isdir : Bool

/-- The query construction of `list_cards` (cli.py line 123): the joined
positional names, or the empty string when there are none. -/
def queryOf (cards : List String) : String :=
  if cards.isEmpty then "" else String.intercalate (" ") cards

def jsonField (k v : String) : String :=
  "\x22" ++ k ++ "\x22: \x22" ++ v ++ "\x22"

/-- Stand-in for json.dumps(response, indent=2) (cli.py line 130) over the
modelled fields; no claim constrains the JSON text itself. -/
def jsonDumps (response : SearchResponse) : String :=
  "\x7b\n  \x22data\x22: [" ++
    String.intercalate (", ") (response.data.map fun card =>
      "\x7b" ++ String.intercalate (", ")
        [jsonField ("id") card.id, jsonField ("name") card.name,
          jsonField ("set") card.set, jsonField ("set_name") card.set_name,
          jsonField ("collector_number") card.collector_number] ++ "\x7d") ++
    "]\n\x7d"

/-- The rendering branch of `list_cards` (cli.py lines 129-138). -/
def renderOutput (args : ListArgs) (response : SearchResponse) : String :=
  if args.json then jsonDumps response
  else if args.with_block && args.with_cn && args.with_set then
    String.intercalate ("\n") (response.data.map fun card =>
      card.name ++ " (" ++ card.set ++ ") " ++ card.collector_number ++
        " " ++ card.set_name)
  else if args.with_block && args.with_cn then
    String.intercalate ("\n") (response.data.map fun card =>
      card.name ++ " (" ++ card.set ++ ") " ++ card.collector_number)
  else if args.with_block then
    String.intercalate ("\n") (response.data.map fun card =>
      card.name ++ " (" ++ card.set ++ ")")
  else
    String.intercalate ("\n") (response.data.map fun card => card.name)

/-- The output destination of `list_cards` (cli.py lines 139-144): write to
the output path when it is a non-empty non-directory path, else print. -/
def outputEffects (args : ListArgs) (output : String) : List Effect :=
  if args.output != "" && !args.output_isdir then
    [.writeFile args.output output,
      .logInfo ("Results saved to " ++ args.output)]
  else
    [.printOut output]

/-- `list_cards` (cli.py lines 121-146). -/
def list_cards (net : Net) (args : ListArgs) :
    List Effect × Except HttpError Unit :=
  let query := queryOf args.cards
  if query = "" then
    ([.logError ("No query provided for listing cards.")], .ok ())
  else
    let step := cards_search net query
    match step.2 with
    | .error err => (step.1, .error err)
    | .ok response =>
      if responseOk response.status then
        (step.1 ++
          [.logInfo ("Found " ++ toString response.data.length ++ " cards.")] ++
          outputEffects args (renderOutput args response), .ok ())
      else
        (step.1, .ok ())

/-- `download_card` (cli.py lines 197-202): fetch one face image, then write
the file; the 1024-byte chunk loop is modelled as one write of the
concatenated chunks. -/
def download_card (net : Net) (card : Card) (filename : String) (face : String) :
    List Effect × Except HttpError Unit :=
  let step := cards_image net card.uuid face
  match step.2 with
  | .error err => (step.1, .error err)
  | .ok result =>
    (step.1 ++ [.logInfo ("Saving \x22" ++ filename ++ "\x22"),
      .writeFile filename (String.join result.content)], .ok ())

/-- The arguments `download_cards` reads.  `output_exists` models the value
of os.path.exists on `output` (cli.py line 207). -/
structure DownloadArgs where
  cards : List String
  dryrun : Bool
  output : String
  output_exists : Bool

/-- The per-card loop of `download_cards` (cli.py lines 210-216). -/
def downloadLoop (net : Net) (pfx : String) (dr : Bool) :
    List Card → List Effect × Except HttpError Unit
  | [] => ([], .ok ())
  | card :: rest =>
    if dr then
      let tail := downloadLoop net pfx dr rest
      (.dryrunNotice ("Downloading " ++ card.name) :: tail.1, tail.2)
    else
      let front := download_card net card
        (pfx ++ slugify card.name ++ ".png") ("front")
      match front.2 with
      | .error err => (front.1, .error err)
      | .ok _ =>
        let back :=
          if card.is_double_faced then
            download_card net card
              (pfx ++ slugify card.name ++ "_back.png") ("back")
          else ([], .ok ())
        match back.2 with
        | .error err => (front.1 ++ back.1, .error err)
        | .ok _ =>
          let tail := downloadLoop net pfx dr rest
          (front.1 ++ back.1 ++ tail.1, tail.2)

/-- `download_cards` (cli.py lines 205-216). -/
def download_cards (net : Net) (args : DownloadArgs) :
    List Effect × Except HttpError Unit :=
  let mkeff := if args.output_exists then [] else [Effect.makedirs args.output]
  let pfx := if args.output != "" then args.output ++ "/" else ""
  let resolved := list_card_names net args.cards
  match resolved.2 with
  | .error err => (mkeff ++ resolved.1, .error err)
  | .ok cards =>
    let loop := downloadLoop net pfx args.dryrun cards
    (mkeff ++ resolved.1 ++ loop.1, loop.2)

/-- A lookup response body with no optional fields, for concrete runs. -/
def emptyJson : CardJson := ⟨"", "", "", "", "", none⟩

/-- The single-faced example card of the spec. -/
def boltJson : CardJson :=
  ⟨"id1", "Bolt", "Limited Edition Alpha", "1", "LEA", none⟩

/-- A lookup response body with a two-element card_faces array. -/
def twoFaceJson : CardJson :=
  ⟨"id2", "DFC", "Some Set", "2", "ST", some [⟨"FaceA"⟩, ⟨"FaceB"⟩]⟩

theorem subCharClass_eq_map (p : Char → Bool) (r : Char) (l : List Char) :
    subCharClass p r l = l.map (fun c => if p c then r else c) := by
  induction l with
  | nil => rfl
  | cons c cs ih => simp [subCharClass, ih]

theorem isIllegalChar_underscore : isIllegalChar '_' = false := by decide

theorem subCharClass_slug_idem (l : List Char) :
    subCharClass isIllegalChar '_' (subCharClass isIllegalChar '_' l) =
      subCharClass isIllegalChar '_' l := by
  induction l with
  | nil => rfl
  | cons c cs ih =>
    by_cases h : isIllegalChar c
    · simp [subCharClass, h, ih, isIllegalChar_underscore]
    · simp [subCharClass, h, ih]

/-- C3: `slugify` is idempotent: for every string x,
slugify (slugify x) = slugify x. -/
theorem slugify_idempotent (x : String) : slugify (slugify x) = slugify x :=
  congrArg String.mk (subCharClass_slug_idem x.data)

/-- C4: `slugify` maps each position of the input through the
replace-illegal-with-underscore function, so each of the nine illegal
characters becomes an underscore, every other character passes through
unchanged, and the output contains none of the nine illegal characters. -/
theorem slugify_char_spec (s : String) (i : Nat) :
    (slugify s).data[i]? =
      (s.data[i]?).map (fun c => if isIllegalChar c then '_' else c) ∧
    ∀ c ∈ (slugify s).data, isIllegalChar c = false := by
  constructor
  · show (subCharClass isIllegalChar '_' s.data)[i]? = _
    rw [subCharClass_eq_map, List.getElem?_map]
  · intro c hc
    have hmem : c ∈ s.data.map (fun c => if isIllegalChar c then '_' else c) := by
      rw [← subCharClass_eq_map]
      exact hc
    rcases List.mem_map.mp hmem with ⟨a, _, rfl⟩
    by_cases hA : isIllegalChar a
    · simp [hA, isIllegalChar_underscore]
    · simp only [Bool.not_eq_true] at hA
      simp [hA]

/-- C5: list mode invoked with no positional card names logs a user-visible
error and performs no HTTP request: the run produces the error log record
and nothing else. -/
theorem list_cards_empty_query_no_request (net : Net) (args : ListArgs)
    (h : args.cards = []) :
    list_cards net args =
      ([.logError ("No query provided for listing cards.")], .ok ()) := by
  simp [list_cards, queryOf, h]

def c5Net : Net :=
  { named := fun _ => ⟨200, emptyJson⟩,
    search := fun _ => ⟨200, []⟩,
    image := fun _ _ => ⟨200, ["png"]⟩ }

def c5Args : ListArgs := ⟨[], false, false, false, false, "", true⟩

theorem list_cards_empty_query_no_request_witness :
    list_cards c5Net c5Args =
      ([.logError ("No query provided for listing cards.")], .ok ()) :=
  list_cards_empty_query_no_request c5Net c5Args rfl

/-- C6: in list text mode with with_block, with_cn and with_set all set,
each result card renders on one line as Name (SetCode) CollectorNumber
SetName, space separated in that order. -/
theorem render_all_flags_line_format (args : ListArgs) (response : SearchResponse)
    (hj : args.json = false) (hb : args.with_block = true)
    (hc : args.with_cn = true) (hs : args.with_set = true) :
    renderOutput args response =
      String.intercalate ("\n") (response.data.map fun card =>
        card.name ++ " (" ++ card.set ++ ") " ++ card.collector_number ++
          " " ++ card.set_name) := by
  simp [renderOutput, hj, hb, hc, hs]

def c6Args : ListArgs := ⟨["Bolt"], false, true, true, true, "", true⟩

theorem render_all_flags_line_format_witness :
    renderOutput c6Args ⟨200, [boltJson]⟩ =
      "Bolt (LEA) 1 Limited Edition Alpha" :=
  (render_all_flags_line_format c6Args ⟨200, [boltJson]⟩ rfl rfl rfl rfl).trans
    (by decide)

/-- C10: in list text mode without with_block, the with_cn and with_set
flags have no effect: the output is the plain card names, one per line,
identical to the output with no rendering flags set. -/
theorem render_without_block_ignores_cn_set (args : ListArgs)
    (response : SearchResponse)
    (hj : args.json = false) (hb : args.with_block = false) :
    renderOutput args response =
        String.intercalate ("\n") (response.data.map fun card => card.name) ∧
    renderOutput args response =
      renderOutput { args with with_cn := false, with_set := false } response := by
  constructor <;> simp [renderOutput, hj, hb]

def c10Args : ListArgs := ⟨["q"], false, false, true, true, "", true⟩

theorem render_without_block_ignores_cn_set_witness :
    renderOutput c10Args ⟨200, [boltJson]⟩ =
        String.intercalate ("\n") ([boltJson].map fun card => card.name) ∧
    renderOutput c10Args ⟨200, [boltJson]⟩ =
      renderOutput { c10Args with with_cn := false, with_set := false }
        ⟨200, [boltJson]⟩ :=
  render_without_block_ignores_cn_set c10Args ⟨200, [boltJson]⟩ rfl rfl

/-- C7: the resolver marks a card double-faced exactly when the lookup
response contains a card_faces array with more than one entry; a successful
single-name resolution yields the card built by `cardFromJson` from the
response body, a two-element card_faces array yields true, and absence of
card_faces yields false. -/
theorem card_double_faced_iff :
    (∀ j : CardJson, ((cardFromJson j).is_double_faced = true ↔
       ∃ fs, j.card_faces = some fs ∧ 1 < fs.length)) ∧
    (∀ (net : Net) (n : String), (net.named n).status < 400 →
       (list_card_names net [n]).2 = .ok [cardFromJson (net.named n).body]) ∧
    (cardFromJson twoFaceJson).is_double_faced = true ∧
    (cardFromJson boltJson).is_double_faced = false := by
  refine ⟨fun j => ?_, fun net n h => ?_, by decide, by decide⟩
  · cases hcf : j.card_faces with
    | none => simp [cardFromJson, hcf]
    | some fs => simp [cardFromJson, hcf]
  · have hn : ¬ 400 ≤ (net.named n).status := Nat.not_le.mpr h
    simp [list_card_names, resolveLoop, cards_named, raise_for_status,
      responseOk, hn, h]

def dfcNet : Net :=
  { named := fun _ => ⟨200, twoFaceJson⟩,
    search := fun _ => ⟨200, []⟩,
    image := fun _ _ => ⟨200, ["png"]⟩ }

theorem card_double_faced_iff_witness :
    (list_card_names dfcNet [("DFC")]).2 =
      .ok [cardFromJson (dfcNet.named ("DFC")).body] :=
  card_double_faced_iff.2.1 dfcNet ("DFC") (by decide)

def c1Net : Net :=
  { named := fun n =>
      if n = "NotACard123" then ⟨404, emptyJson⟩ else ⟨200, boltJson⟩,
    search := fun _ => ⟨200, []⟩,
    image := fun _ _ => ⟨200, ["png"]⟩ }

/-- C1: contrary to the claim, a single failed exact lookup aborts the whole
batch.  `cards_named` calls raise_for_status inside `_endpoint_get`, so a
404 on the middle name raises out of `list_card_names` before the
falsy-response branch (the one that logs Card not found and skips) can run;
the batch stops at the bad name, resolves no cards, never reaches the third
name and never logs the per-name error. -/
theorem list_card_names_aborts_on_failed_lookup :
    list_card_names c1Net [("Lightning Bolt"), ("NotACard123"), ("Black Lotus")] =
      ([.namedCall ("Lightning Bolt"), .namedCall ("NotACard123")],
        .error ⟨404⟩) := by decide

theorem outputEffects_counts (args : ListArgs) (out : String) :
    (outputEffects args out).countP Effect.isSearch = 0 ∧
    (outputEffects args out).countP Effect.isNamed = 0 := by
  unfold outputEffects
  split <;> simp [List.countP_cons, Effect.isSearch, Effect.isNamed]

/-- C2: for a non-empty query, `list_cards` issues exactly one search call
and no exact-name lookup; when the response status is good, the run is
exactly the search call, then the log record with the match count, then the
rendering output effects. -/
theorem list_cards_single_search_call (net : Net) (args : ListArgs)
    (hq : queryOf args.cards ≠ "") :
    (list_cards net args).1.countP Effect.isSearch = 1 ∧
    (list_cards net args).1.countP Effect.isNamed = 0 ∧
    ((net.search (queryOf args.cards)).status < 400 →
      (list_cards net args).1 =
        Effect.searchCall (queryOf args.cards) ::
          Effect.logInfo ("Found " ++
              toString (net.search (queryOf args.cards)).data.length ++
              " cards.") ::
            outputEffects args (renderOutput args (net.search (queryOf args.cards)))) := by
  by_cases hs : 400 ≤ (net.search (queryOf args.cards)).status
  · have heff : list_cards net args =
        ([.searchCall (queryOf args.cards)],
          .error ⟨(net.search (queryOf args.cards)).status⟩) := by
      simp [list_cards, cards_search, raise_for_status, hq, hs]
    rw [heff]
    refine ⟨by simp [List.countP_cons, Effect.isSearch],
      by simp [List.countP_cons, Effect.isNamed], fun hlt => ?_⟩
    omega
  · have hok : responseOk (net.search (queryOf args.cards)).status = true := by
      simp [responseOk]
      omega
    have heff : list_cards net args =
        (Effect.searchCall (queryOf args.cards) ::
          Effect.logInfo ("Found " ++
              toString (net.search (queryOf args.cards)).data.length ++
              " cards.") ::
            outputEffects args (renderOutput args (net.search (queryOf args.cards))),
          .ok ()) := by
      simp [list_cards, cards_search, raise_for_status, hq, hs, hok]
    rw [heff]
    refine ⟨?_, ?_, fun _ => rfl⟩
    · simp [List.countP_cons, Effect.isSearch, (outputEffects_counts args _).1]
    · simp [List.countP_cons, Effect.isNamed, (outputEffects_counts args _).2]

def c2Net : Net :=
  { named := fun _ => ⟨200, emptyJson⟩,
    search := fun _ => ⟨200, [boltJson]⟩,
    image := fun _ _ => ⟨200, ["png"]⟩ }

def c2Args : ListArgs := ⟨["Bolt"], false, false, false, false, "/tmp", true⟩

theorem list_cards_single_search_call_witness :
    (list_cards c2Net c2Args).1.countP Effect.isSearch = 1 ∧
    (list_cards c2Net c2Args).1.countP Effect.isNamed = 0 ∧
    ((c2Net.search (queryOf c2Args.cards)).status < 400 →
      (list_cards c2Net c2Args).1 =
        Effect.searchCall (queryOf c2Args.cards) ::
          Effect.logInfo ("Found " ++
              toString (c2Net.search (queryOf c2Args.cards)).data.length ++
              " cards.") ::
            outputEffects c2Args
              (renderOutput c2Args (c2Net.search (queryOf c2Args.cards)))) :=
  list_cards_single_search_call c2Net c2Args (by decide)

theorem resolveLoop_effect_kinds (net : Net) (names : List String) :
    ∀ e ∈ (resolveLoop net names).1,
      Effect.isImage e = false ∧ Effect.isFileWrite e = false ∧
        Effect.noticeMsg e = none := by
  induction names with
  | nil =>
    intro e he
    simp [resolveLoop] at he
  | cons n rest ih =>
    intro e he
    rcases hr : raise_for_status (net.named n).status with err | u
    · simp [resolveLoop, cards_named, hr] at he
      simp [he, Effect.isImage, Effect.isFileWrite, Effect.noticeMsg]
    · by_cases hok : responseOk (net.named n).status
      · simp [resolveLoop, cards_named, hr, hok] at he
        rcases he with he | he
        · simp [he, Effect.isImage, Effect.isFileWrite, Effect.noticeMsg]
        · exact ih e he
      · simp [resolveLoop, cards_named, hr, hok] at he
        rcases he with he | he | he
        · simp [he, Effect.isImage, Effect.isFileWrite, Effect.noticeMsg]
        · simp [he, Effect.isImage, Effect.isFileWrite, Effect.noticeMsg]
        · exact ih e he

theorem list_card_names_effect_kinds (net : Net) (names : List String) :
    ∀ e ∈ (list_card_names net names).1,
      Effect.isImage e = false ∧ Effect.isFileWrite e = false ∧
        Effect.noticeMsg e = none := by
  intro e he
  rcases hr : (resolveLoop net names).2 with err | cards
  · simp [list_card_names, hr] at he
    exact resolveLoop_effect_kinds net names e he
  · simp [list_card_names, hr] at he
    rcases he with he | he
    · exact resolveLoop_effect_kinds net names e he
    · simp [he, Effect.isImage, Effect.isFileWrite, Effect.noticeMsg]

theorem filterMap_notice (cs : List Card) :
    (cs.map (fun c =>
        Effect.dryrunNotice ("Downloading " ++ c.name))).filterMap
        Effect.noticeMsg =
      cs.map (fun c => "Downloading " ++ c.name) := by
  induction cs with
  | nil => rfl
  | cons c rest ih => simp [Effect.noticeMsg, ih]

theorem downloadLoop_dryrun (net : Net) (pfx : String) (cs : List Card) :
    downloadLoop net pfx true cs =
      (cs.map (fun c => Effect.dryrunNotice ("Downloading " ++ c.name)),
        .ok ()) := by
  induction cs with
  | nil => rfl
  | cons c rest ih => simp [downloadLoop, ih]

def c9Net : Net :=
  { named := fun _ => ⟨200, boltJson⟩,
    search := fun _ => ⟨200, []⟩,
    image := fun _ _ => ⟨200, ["png"]⟩ }

def c9Args : DownloadArgs := ⟨["Bolt"], true, "out", false⟩

/-- C9 counterexample: a dry run over a non-empty card list with an absent
output directory still creates the directory, a filesystem side effect, so
the run performs a filesystem write and does more than emit notices. -/
theorem dryrun_counterexample :
    c9Args.dryrun = true ∧ c9Args.cards ≠ [] ∧
      (download_cards c9Net c9Args).1.countP Effect.isFsEffect ≠ 0 := by
  decide

/-- C9 amended: with the dryrun flag set, download mode performs zero
image-fetch calls and zero file writes, and the dry-run notices of the run
are exactly one per resolved card, naming the card; the output directory
may still be created when absent, and the per-name lookup calls still
happen. -/
theorem dryrun_no_fetch_no_file_write (net : Net) (args : DownloadArgs)
    (cs : List Card) (hdr : args.dryrun = true)
    (hres : (list_card_names net args.cards).2 = .ok cs) :
    (download_cards net args).1.countP Effect.isImage = 0 ∧
    (download_cards net args).1.countP Effect.isFileWrite = 0 ∧
    (download_cards net args).1.filterMap Effect.noticeMsg =
      cs.map (fun c => "Downloading " ++ c.name) := by
  have heff : (download_cards net args).1 =
      (if args.output_exists then [] else [Effect.makedirs args.output]) ++
        (list_card_names net args.cards).1 ++
        cs.map (fun c => Effect.dryrunNotice ("Downloading " ++ c.name)) := by
    simp [download_cards, hres, hdr, downloadLoop_dryrun]
  have hmk : ∀ e ∈ (if args.output_exists then ([] : List Effect)
      else [Effect.makedirs args.output]),
      Effect.isImage e = false ∧ Effect.isFileWrite e = false ∧
        Effect.noticeMsg e = none := by
    intro e he
    by_cases hoe : args.output_exists
    · simp [hoe] at he
    · simp [hoe] at he
      simp [he, Effect.isImage, Effect.isFileWrite, Effect.noticeMsg]
  have hnote : ∀ e ∈ cs.map (fun c =>
      Effect.dryrunNotice ("Downloading " ++ c.name)),
      Effect.isImage e = false ∧ Effect.isFileWrite e = false := by
    intro e he
    rcases List.mem_map.mp he with ⟨c, _, rfl⟩
    simp [Effect.isImage, Effect.isFileWrite]
  rw [heff]
  refine ⟨?_, ?_, ?_⟩
  · rw [List.countP_eq_zero]
    intro e he
    rcases List.mem_append.mp he with he | he
    · rcases List.mem_append.mp he with he | he
      · simp [(hmk e he).1]
      · simp [(list_card_names_effect_kinds net args.cards e he).1]
    · simp [(hnote e he).1]
  · rw [List.countP_eq_zero]
    intro e he
    rcases List.mem_append.mp he with he | he
    · rcases List.mem_append.mp he with he | he
      · simp [(hmk e he).2.1]
      · simp [(list_card_names_effect_kinds net args.cards e he).2.1]
    · simp [(hnote e he).2]
  · rw [List.filterMap_append, List.filterMap_append]
    have h1 : (if args.output_exists then ([] : List Effect)
        else [Effect.makedirs args.output]).filterMap Effect.noticeMsg = [] := by
      rw [List.filterMap_eq_nil_iff]
      intro e he
      exact (hmk e he).2.2
    have h2 : (list_card_names net args.cards).1.filterMap Effect.noticeMsg = [] := by
      rw [List.filterMap_eq_nil_iff]
      intro e he
      exact (list_card_names_effect_kinds net args.cards e he).2.2
    rw [h1, h2, filterMap_notice]
    simp

def c9bArgs : DownloadArgs := ⟨["Bolt"], true, "out", true⟩

theorem dryrun_no_fetch_no_file_write_witness :
    (download_cards c9Net c9bArgs).1.countP Effect.isImage = 0 ∧
    (download_cards c9Net c9bArgs).1.countP Effect.isFileWrite = 0 ∧
    (download_cards c9Net c9bArgs).1.filterMap Effect.noticeMsg =
      [cardFromJson boltJson].map (fun c => "Downloading " ++ c.name) :=
  dryrun_no_fetch_no_file_write c9Net c9bArgs [cardFromJson boltJson]
    rfl (by decide)

theorem downloadLoop_writes (net : Net) (pfx : String) (cs : List Card) :
    (∀ c ∈ cs, (net.image c.uuid ("front")).status < 400 ∧
      (c.is_double_faced = true → (net.image c.uuid ("back")).status < 400)) →
    (downloadLoop net pfx false cs).1.filter Effect.isFileWrite =
      cs.flatMap (fun c =>
        Effect.writeFile (pfx ++ slugify c.name ++ ".png")
            (String.join (net.image c.uuid ("front")).content) ::
          (if c.is_double_faced then
            [Effect.writeFile (pfx ++ slugify c.name ++ "_back.png")
              (String.join (net.image c.uuid ("back")).content)]
          else [])) := by
  induction cs with
  | nil =>
    intro _
    simp [downloadLoop]
  | cons c rest ih =>
    intro himg
    have hc := himg c (List.mem_cons_self c rest)
    have hfn : ¬ 400 ≤ (net.image c.uuid ("front")).status := Nat.not_le.mpr hc.1
    have irest := ih (fun x hx => himg x (List.mem_cons_of_mem c hx))
    by_cases hdf : c.is_double_faced
    · have hbn : ¬ 400 ≤ (net.image c.uuid ("back")).status :=
        Nat.not_le.mpr (hc.2 hdf)
      simp [downloadLoop, download_card, cards_image, raise_for_status,
        hfn, hbn, hdf, Effect.isFileWrite, List.filter_append, irest]
    · simp only [Bool.not_eq_true] at hdf
      simp [downloadLoop, download_card, cards_image, raise_for_status,
        hfn, hdf, Effect.isFileWrite, List.filter_append, irest]

/-- C8: in download mode without dryrun, for each resolved card of the batch
— in batch order — the run writes exactly one file output/slug.png with the
front-face image content when the card is single-faced, and exactly two
files, additionally output/slug_back.png with the back-face image content,
when it is double-faced; the back-face endpoint is only consulted for
double-faced cards. -/
theorem download_writes_per_card (net : Net) (args : DownloadArgs)
    (cs : List Card)
    (h2 : args.dryrun = false)
    (h0 : (args.output != "") = true)
    (hres : (list_card_names net args.cards).2 = .ok cs)
    (himg : ∀ c ∈ cs, (net.image c.uuid ("front")).status < 400 ∧
      (c.is_double_faced = true → (net.image c.uuid ("back")).status < 400)) :
    (download_cards net args).1.filter Effect.isFileWrite =
      cs.flatMap (fun c =>
        Effect.writeFile (args.output ++ "/" ++ slugify c.name ++ ".png")
            (String.join (net.image c.uuid ("front")).content) ::
          (if c.is_double_faced then
            [Effect.writeFile (args.output ++ "/" ++ slugify c.name ++ "_back.png")
              (String.join (net.image c.uuid ("back")).content)]
          else [])) := by
  have heff : (download_cards net args).1 =
      (if args.output_exists then [] else [Effect.makedirs args.output]) ++
        (list_card_names net args.cards).1 ++
        (downloadLoop net (args.output ++ "/") args.dryrun cs).1 := by
    simp [download_cards, hres, h0]
  have hf1 : (if args.output_exists then ([] : List Effect)
      else [Effect.makedirs args.output]).filter Effect.isFileWrite = [] := by
    by_cases hoe : args.output_exists <;> simp [hoe, Effect.isFileWrite]
  have hf2 : (list_card_names net args.cards).1.filter Effect.isFileWrite = [] := by
    rw [List.filter_eq_nil_iff]
    intro e he
    simp [(list_card_names_effect_kinds net args.cards e he).2.1]
  rw [heff, List.filter_append, List.filter_append, hf1, hf2, h2,
    downloadLoop_writes net (args.output ++ "/") cs himg]
  simp

def c8Net : Net :=
  { named := fun n => if n = "DFC" then ⟨200, twoFaceJson⟩ else ⟨200, boltJson⟩,
    search := fun _ => ⟨200, []⟩,
    image := fun u f =>
      if u = "id1" && f = "back" then ⟨500, []⟩ else ⟨200, [u ++ "-" ++ f]⟩ }

def c8Args : DownloadArgs := ⟨["Bolt", "DFC"], false, "out", true⟩

theorem download_writes_per_card_witness :
    (download_cards c8Net c8Args).1.filter Effect.isFileWrite =
      [.writeFile ("out/Bolt.png") ("id1-front"),
        .writeFile ("out/DFC.png") ("id2-front"),
        .writeFile ("out/DFC_back.png") ("id2-back")] :=
  (download_writes_per_card c8Net c8Args
      [cardFromJson boltJson, cardFromJson twoFaceJson]
      rfl (by decide) (by decide) (by decide)).trans (by decide)

end Scryfall
